import Mathlib

/-!
Verification of the Next.js + Couchbase Capella quickstart REST API.

The repository is a set of stateless HTTP route handlers over a document
store.  We shallowly embed the pieces the properties talk about:

* JSON values (`Json`), with numbers modelled as integers — no property
  here depends on fractional arithmetic, numbers are only carried opaquely;
* the zod schemas (`AirlineSchema`, `AirportSchema`, `GeoSchema`,
  `HotelSchema` from `app/models`): `parse` runs every field parser,
  accumulates the issues of all failing fields (zod reports every
  violation, not just the first) and succeeds exactly when no issue arose;
* the key-value store at its interface (`Store` as an association list,
  `storeGet` / `storeInsert` / `storeUpsert` matching the couchbase
  collection operations used: insert fails on an existing key, upsert
  replaces or adds);
* the route handlers of `app/api/v1/...` as pure state-passing functions;
  the boolean `conn` argument models whether `getDatabase()` and the store
  calls succeed (`false` = the store client throws, landing in the
  handler's catch-all branch).  Couchbase `MutationResult` metadata (CAS
  tokens) is modelled by the opaque constant `mutationMetaJson`: response
  equality below is equality up to that metadata.
-/

/-- A zod validation issue: a field path and a message.  Mirrors the
`path`/`message` fields of `ZodIssue` used by the handlers' 400 bodies. -/
structure ZodIssue where
  path : List String
  message : String
deriving DecidableEq, Repr

/-- JSON values.  Numbers are modelled as integers (see header note). -/
inductive Json where
  | str : String → Json
  | num : Int → Json
  | bool : Bool → Json
  | null : Json
  | arr : List Json → Json
  | obj : List (String × Json) → Json

/-- Property lookup in a JSON object's field list (JS objects have unique
keys, so first match is the value). -/
def lookupKey (fs : List (String × Json)) (k : String) : Option Json :=
  match fs with
  | [] => none
  | (k0, v) :: t => if k0 = k then some v else lookupKey t k

/-- Name of a JSON value's type, used in zod's mismatch messages. -/
def Json.typeName : Json → String
  | .str _ => "string"
  | .num _ => "number"
  | .bool _ => "boolean"
  | .null => "null"
  | .arr _ => "array"
  | .obj _ => "object"

/-- The issues carried by a field-parse result (`[]` when it succeeded). -/
def errList {α : Type} : Except (List ZodIssue) α → List ZodIssue
  | .ok _ => []
  | .error e => e

/-- The value of a field-parse result, defaulting when it failed; only ever
read under the hypothesis that no issue arose. -/
def exGet {α : Type} : Except (List ZodIssue) α → α → α
  | .ok a, _ => a
  | .error _, d => d

/-- zod: a required string field (`z.string()`). -/
def zodReqString (fs : List (String × Json)) (k : String) :
    Except (List ZodIssue) String :=
  match lookupKey fs k with
  | none => .error [⟨[k], "Required"⟩]
  | some (.str s) => .ok s
  | some v => .error [⟨[k], "Expected string, received " ++ v.typeName⟩]

/-- zod: an optional string field (`z.string().optional()`). -/
def zodOptString (fs : List (String × Json)) (k : String) :
    Except (List ZodIssue) (Option String) :=
  match lookupKey fs k with
  | none => .ok none
  | some (.str s) => .ok (some s)
  | some v => .error [⟨[k], "Expected string, received " ++ v.typeName⟩]

/-- zod: a required number field (`z.number()`). -/
def zodReqNumber (fs : List (String × Json)) (k : String) :
    Except (List ZodIssue) Int :=
  match lookupKey fs k with
  | none => .error [⟨[k], "Required"⟩]
  | some (.num n) => .ok n
  | some v => .error [⟨[k], "Expected number, received " ++ v.typeName⟩]

/-- zod: issues of a nested object field, paths prefixed with the key. -/
def nestIssues (k : String) (issues : List ZodIssue) : List ZodIssue :=
  issues.map (fun i => ⟨k :: i.path, i.message⟩)

/-- `TAirline` of `app/models/Airline.ts` (the zod variant the v1 handlers
import: callsign/iata optional, the rest required). -/
structure TAirline where
  callsign : Option String
  country : String
  iata : Option String
  icao : String
  id : Int
  name : String
  type : String
deriving DecidableEq, Repr

/-- Issues collected over all fields of `AirlineSchema`, in shape order. -/
def airlineIssues (fs : List (String × Json)) : List ZodIssue :=
  errList (zodOptString fs "callsign") ++
  errList (zodReqString fs "country") ++
  errList (zodOptString fs "iata") ++
  errList (zodReqString fs "icao") ++
  errList (zodReqNumber fs "id") ++
  errList (zodReqString fs "name") ++
  errList (zodReqString fs "type")

/-- `AirlineSchema.parse`: every field is validated, all issues are
reported together; success exactly when no field raised an issue. -/
def AirlineSchema.parse (j : Json) : Except (List ZodIssue) TAirline :=
  match j with
  | .obj fs =>
    if airlineIssues fs = [] then
      .ok ⟨exGet (zodOptString fs "callsign") none,
           exGet (zodReqString fs "country") "",
           exGet (zodOptString fs "iata") none,
           exGet (zodReqString fs "icao") "",
           exGet (zodReqNumber fs "id") 0,
           exGet (zodReqString fs "name") "",
           exGet (zodReqString fs "type") ""⟩
    else .error (airlineIssues fs)
  | j => .error [⟨[], "Expected object, received " ++ j.typeName⟩]

/-- The required fields of `AirlineSchema` (the non-`optional()` ones). -/
def airlineRequiredFields : List String :=
  ["country", "icao", "id", "name", "type"]

/-- JSON serialisation of a parsed airline, in shape key order; absent
optional keys are omitted, unknown input keys were stripped by zod. -/
def encodeAirline (a : TAirline) : Json :=
  .obj ((match a.callsign with | some s => [("callsign", Json.str s)] | none => []) ++
        [("country", Json.str a.country)] ++
        (match a.iata with | some s => [("iata", Json.str s)] | none => []) ++
        [("icao", Json.str a.icao),
         ("id", Json.num a.id),
         ("name", Json.str a.name),
         ("type", Json.str a.type)])

/-- The `zod` issue list as serialised into the 400 response's `error`
field (`error.errors`): one object per issue with its path and message. -/
def encodeIssues (issues : List ZodIssue) : Json :=
  .arr (issues.map (fun i =>
    .obj [("path", .arr (i.path.map Json.str)), ("message", .str i.message)]))

/-! ## The key-value store interface (couchbase collection operations) -/

/-- A collection: documents keyed by document id. -/
abbrev Store := List (String × Json)

/-- `collection.get(key)`. -/
def storeGet (st : Store) (k : String) : Option Json :=
  lookupKey st k

/-- `collection.insert(key, value)`: throws `DocumentExistsError` when the
key is already populated, otherwise adds the document. -/
def storeInsert (st : Store) (k : String) (v : Json) : Option Store :=
  match lookupKey st k with
  | some _ => none
  | none => some (st ++ [(k, v)])

/-- `collection.upsert(key, value)`: replaces the document at the key or
adds it; never fails on existence. -/
def storeUpsert (st : Store) (k : String) (v : Json) : Store :=
  match st with
  | [] => [(k, v)]
  | (k0, v0) :: t => if k0 = k then (k0, v) :: t else (k0, v0) :: storeUpsert t k v

/-! ## HTTP responses and the airline CRUD handlers
(`app/api/v1/airline/[airlineId]/route.ts`) -/

/-- An HTTP response: status code and JSON body. -/
structure Response where
  status : Nat
  body : Json

/-- Opaque stand-in for the serialised couchbase `MutationResult` (CAS
token metadata) echoed in 201/200 bodies. -/
def mutationMetaJson : Json := .obj [("cas", .null)]

/-- `GET /api/v1/airline/{airlineId}`: key-value get; `DocumentNotFoundError`
maps to 404, any other failure to 500. -/
def airlineGET (conn : Bool) (st : Store) (airlineId : String) : Response :=
  if conn then
    match storeGet st airlineId with
    | some doc => ⟨200, doc⟩
    | none => ⟨404, .obj [("message", .str "Airline not found"),
                          ("error", .str "Airline not found")]⟩
  else ⟨500, .obj [("message", .str "An error occurred while fetching airline")]⟩

/-- `POST /api/v1/airline/{airlineId}`: the body is parsed with
`AirlineSchema.parse` *before* `getDatabase()` and the insert; `ZodError`
maps to 400, `DocumentExistsError` to 409, anything else to 500. -/
def airlinePOST (conn : Bool) (st : Store) (airlineId : String) (body : Json) :
    Response × Store :=
  match AirlineSchema.parse body with
  | .error issues =>
    (⟨400, .obj [("message", .str "Invalid request body"),
                 ("error", encodeIssues issues)]⟩, st)
  | .ok a =>
    if conn then
      match storeInsert st airlineId (encodeAirline a) with
      | some st2 =>
        (⟨201, .obj [("airlineId", .str airlineId),
                     ("airlineData", encodeAirline a),
                     ("createdAirline", mutationMetaJson)]⟩, st2)
      | none =>
        (⟨409, .obj [("message", .str "Airline already exists"),
                     ("error", .str "Airline already exists")]⟩, st)
    else
      (⟨500, .obj [("message", .str "An error occurred while creating airline")]⟩, st)

/-- `PUT /api/v1/airline/{airlineId}`: parse, then upsert; `ZodError` maps
to 400, anything else to 500 — there is no 404 branch. -/
def airlinePUT (conn : Bool) (st : Store) (airlineId : String) (body : Json) :
    Response × Store :=
  match AirlineSchema.parse body with
  | .error issues =>
    (⟨400, .obj [("message", .str "Invalid request body"),
                 ("error", encodeIssues issues)]⟩, st)
  | .ok a =>
    if conn then
      (⟨200, .obj [("airlineId", .str airlineId),
                   ("airlineData", encodeAirline a),
                   ("updatedAirline", mutationMetaJson)]⟩,
       storeUpsert st airlineId (encodeAirline a))
    else
      (⟨500, .obj [("message", .str "An error occurred while updating airline"),
                   ("error", .str "An error occurred while updating airline")]⟩, st)

/-! ## The airport schemas and the airport create/upsert handlers
(`app/models` zod `GeoSchema`/`AirportSchema`, `airport/[airportId]/route.ts`) -/

/-- `TGeo`: the nested `geo` object. -/
structure TGeo where
  alt : Int
  lat : Int
  lon : Int
deriving DecidableEq, Repr

/-- `TAirport`: the zod airport shape the v1 airport handlers validate
against — every field of the shape is required (no `.optional()`). -/
structure TAirport where
  airportname : String
  city : String
  country : String
  faa : String
  icao : String
  tz : String
  geo : TGeo
deriving DecidableEq, Repr

/-- Issues collected over the fields of `GeoSchema`, in shape order. -/
def geoIssues (fs : List (String × Json)) : List ZodIssue :=
  errList (zodReqNumber fs "alt") ++
  errList (zodReqNumber fs "lat") ++
  errList (zodReqNumber fs "lon")

/-- `GeoSchema.parse`: `alt`, `lat`, `lon` all required numbers. -/
def GeoSchema.parse (j : Json) : Except (List ZodIssue) TGeo :=
  match j with
  | .obj fs =>
    if geoIssues fs = [] then
      .ok ⟨exGet (zodReqNumber fs "alt") 0,
           exGet (zodReqNumber fs "lat") 0,
           exGet (zodReqNumber fs "lon") 0⟩
    else .error (geoIssues fs)
  | j => .error [⟨[], "Expected object, received " ++ j.typeName⟩]

/-- zod: the required nested `geo: GeoSchema` field — missing key is a
`Required` issue, otherwise the nested issues get path prefix `geo`. -/
def zodReqGeo (fs : List (String × Json)) : Except (List ZodIssue) TGeo :=
  match lookupKey fs "geo" with
  | none => .error [⟨["geo"], "Required"⟩]
  | some v =>
    match GeoSchema.parse v with
    | .ok g => .ok g
    | .error issues => .error (nestIssues "geo" issues)

/-- Issues collected over all fields of `AirportSchema`, in shape order. -/
def airportIssues (fs : List (String × Json)) : List ZodIssue :=
  errList (zodReqString fs "airportname") ++
  errList (zodReqString fs "city") ++
  errList (zodReqString fs "country") ++
  errList (zodReqString fs "faa") ++
  errList (zodReqString fs "icao") ++
  errList (zodReqString fs "tz") ++
  errList (zodReqGeo fs)

/-- `AirportSchema.parse`: all seven fields required; issues accumulate. -/
def AirportSchema.parse (j : Json) : Except (List ZodIssue) TAirport :=
  match j with
  | .obj fs =>
    if airportIssues fs = [] then
      .ok ⟨exGet (zodReqString fs "airportname") "",
           exGet (zodReqString fs "city") "",
           exGet (zodReqString fs "country") "",
           exGet (zodReqString fs "faa") "",
           exGet (zodReqString fs "icao") "",
           exGet (zodReqString fs "tz") "",
           exGet (zodReqGeo fs) ⟨0, 0, 0⟩⟩
    else .error (airportIssues fs)
  | j => .error [⟨[], "Expected object, received " ++ j.typeName⟩]

/-- JSON serialisation of a parsed airport, in shape key order. -/
def encodeAirport (a : TAirport) : Json :=
  .obj [("airportname", .str a.airportname),
        ("city", .str a.city),
        ("country", .str a.country),
        ("faa", .str a.faa),
        ("icao", .str a.icao),
        ("tz", .str a.tz),
        ("geo", .obj [("alt", .num a.geo.alt),
                      ("lat", .num a.geo.lat),
                      ("lon", .num a.geo.lon)])]

/-- `POST /api/v1/airport/{airportId}`: parse with `AirportSchema`, then
insert; 400 on `ZodError`, 409 on `DocumentExistsError`, 500 otherwise.
(The 201 body echoes the *raw* body in `airportData`, per this route.) -/
def airportPOST (conn : Bool) (st : Store) (airportId : String) (body : Json) :
    Response × Store :=
  match AirportSchema.parse body with
  | .error issues =>
    (⟨400, .obj [("message", .str "Invalid request body"),
                 ("error", encodeIssues issues)]⟩, st)
  | .ok a =>
    if conn then
      match storeInsert st airportId (encodeAirport a) with
      | some st2 =>
        (⟨201, .obj [("airportId", .str airportId),
                     ("airportData", body),
                     ("createdAirport", mutationMetaJson)]⟩, st2)
      | none =>
        (⟨409, .obj [("message", .str "Airport already exists"),
                     ("error", .str "Airport already exists")]⟩, st)
    else
      (⟨500, .obj [("message", .str "An error occurred while creating airport")]⟩, st)

/-- `PUT /api/v1/airport/{airportId}`: parse, then upsert; 400 on
`ZodError`, 500 otherwise — no 404 branch. -/
def airportPUT (conn : Bool) (st : Store) (airportId : String) (body : Json) :
    Response × Store :=
  match AirportSchema.parse body with
  | .error issues =>
    (⟨400, .obj [("message", .str "Invalid request body"),
                 ("error", encodeIssues issues)]⟩, st)
  | .ok a =>
    if conn then
      (⟨200, .obj [("airportId", .str airportId),
                   ("airportData", encodeAirport a),
                   ("updatedAirport", mutationMetaJson)]⟩,
       storeUpsert st airportId (encodeAirport a))
    else
      (⟨500, .obj [("message", .str "An error occurred while updating airport")]⟩, st)

/-! ## The hotel schema (`app/models/Hotel.ts`): six optional strings;
unknown keys are stripped, not rejected (zod default object mode). -/

/-- `THotel`. -/
structure THotel where
  name : Option String
  title : Option String
  description : Option String
  country : Option String
  city : Option String
  state : Option String
deriving DecidableEq, Repr

/-- Issues collected over all fields of `HotelSchema`, in shape order. -/
def hotelIssues (fs : List (String × Json)) : List ZodIssue :=
  errList (zodOptString fs "name") ++
  errList (zodOptString fs "title") ++
  errList (zodOptString fs "description") ++
  errList (zodOptString fs "country") ++
  errList (zodOptString fs "city") ++
  errList (zodOptString fs "state")

/-- `HotelSchema.parse`. -/
def HotelSchema.parse (j : Json) : Except (List ZodIssue) THotel :=
  match j with
  | .obj fs =>
    if hotelIssues fs = [] then
      .ok ⟨exGet (zodOptString fs "name") none,
           exGet (zodOptString fs "title") none,
           exGet (zodOptString fs "description") none,
           exGet (zodOptString fs "country") none,
           exGet (zodOptString fs "city") none,
           exGet (zodOptString fs "state") none⟩
    else .error (hotelIssues fs)
  | j => .error [⟨[], "Expected object, received " ++ j.typeName⟩]

/-! ## Query/list handlers
(`airline/list`, `airline/to-airport`, `airport/direct-connections`,
`hotel/filter`).  Query-string parameters arrive as an association list of
strings (`URLSearchParams`). -/

/-- `searchParams.get(k)`. -/
def lookupParam (params : List (String × String)) (k : String) : Option String :=
  match params with
  | [] => none
  | (k0, v) :: t => if k0 = k then some v else lookupParam t k

/-- Decimal digits accumulated into a number; `none` at a non-digit. -/
def jsDigitsAux (cs : List Char) (acc : Nat) : Option Nat :=
  match cs with
  | [] => some acc
  | c :: t => if c.isDigit then jsDigitsAux t (acc * 10 + (c.toNat - 48)) else none

/-- JavaScript `Number()` on the query strings at issue: the empty string
converts to `0`, a (possibly negated) integer numeral to its value, and
anything non-numeric to `NaN` — modelled as `none`.  (Fractional,
exponent and radix-prefixed forms are outside the scope of these
properties and count as non-numeric here.) -/
def jsNumber (s : String) : Option Int :=
  match s.data with
  | [] => some 0
  | '-' :: c :: rest => (jsDigitsAux (c :: rest) 0).map (fun n => -(n : Int))
  | cs => (jsDigitsAux cs 0).map (fun n => (n : Int))

/-- `Number(searchParams.get(k) ?? d)`: the handlers default the *absent*
parameter to the number `d` before converting; a present value goes
through `Number()` and may come out `NaN`. -/
def effParam (params : List (String × String)) (k : String) (d : Int) : Option Int :=
  match lookupParam params k with
  | none => some d
  | some s => jsNumber s

/-- The store's evaluation of `LIMIT $LIMIT OFFSET $OFFSET` over the rows
matching the rest of the query: the query engine rejects a `NaN`
(serialised as `null`) or negative bound with an error, otherwise it
skips `offset` rows and returns at most `limit` rows. -/
def queryEval {α : Type} (rows : List α) (lim off : Option Int) :
    Option (List α) :=
  match lim, off with
  | some l, some o =>
    if 0 ≤ l ∧ 0 ≤ o then some ((rows.drop o.toNat).take l.toNat) else none
  | _, _ => none

/-- The projection list of the airline list/to-airport queries
(`SELECT air.callsign, air.country, air.iata, air.icao, air.id, air.name,
air.type`). -/
def airlineProjFields : List String :=
  ["callsign", "country", "iata", "icao", "id", "name", "type"]

/-- Projection of one airline document onto the selected fields (a field
absent from the document is MISSING and omitted from the row). -/
def projectAirlineRow (doc : Json) : Json :=
  match doc with
  | .obj fs => .obj (airlineProjFields.filterMap
      (fun k => (lookupKey fs k).map (fun v => (k, v))))
  | _ => .obj []

/-- Does an airline document match the `WHERE air.country = $COUNTRY`
filter? -/
def airlineCountryIs (c : String) (doc : Json) : Bool :=
  match doc with
  | .obj fs =>
    match lookupKey fs "country" with
    | some (.str s) => s = c
    | _ => false
  | _ => false

/-- `GET /api/v1/airline/list`: optional `country` filter (empty string or
absent means no filter), pagination via `Number(limit ?? 10)` /
`Number(offset ?? 0)`; one SQL++ query; any failure maps to 500. -/
def airlineListGET (conn : Bool) (airlines : List Json)
    (params : List (String × String)) : Response :=
  if conn then
    let country := (lookupParam params "country").getD ""
    let lim := effParam params "limit" 10
    let off := effParam params "offset" 0
    let matching := if country = "" then airlines
                    else airlines.filter (airlineCountryIs country)
    match queryEval (matching.map projectAirlineRow) lim off with
    | some rows => ⟨200, .arr rows⟩
    | none => ⟨500, .obj [("message", .str "An error occurred while fetching airlines")]⟩
  else ⟨500, .obj [("message", .str "An error occurred while fetching airlines")]⟩

/-- Store interactions a handler performs, in order: acquiring the
database handle (`getDatabase()`) and submitting a query. -/
inductive StoreEv where
  | connect
  | query
deriving DecidableEq, Repr

/-- `GET /api/v1/airline/to-airport`: the handler first awaits
`getDatabase()`, then reads the parameters and returns 400 when
`destinationAirportCode` is absent or empty, and only otherwise submits
the join query (whose row set we take as a parameter — the join runs
inside the store).  Returns the response together with the trace of store
interactions. -/
def toAirportGET (conn : Bool) (joinRows : List Json)
    (params : List (String × String)) : Response × List StoreEv :=
  if conn then
    let code := (lookupParam params "destinationAirportCode").getD ""
    if code = "" then
      (⟨400, .obj [("message", .str "Destination airport code is required")]⟩,
       [.connect])
    else
      match queryEval joinRows (effParam params "limit" 10) (effParam params "offset" 0) with
      | some rows => (⟨200, .arr rows⟩, [.connect, .query])
      | none => (⟨500, .obj [("message", .str "Failed to fetch airlines")]⟩,
                 [.connect, .query])
  else
    (⟨500, .obj [("message", .str "Failed to fetch airlines")]⟩, [.connect])

/-- The direct-connections SQL++ statement, verbatim from the handler;
`directConnMatches` below is its evaluation over the two collections. -/
def directConnQueryDoc : String :=
  "SELECT DISTINCT route.destinationairport FROM airport AS airport " ++
  "JOIN route AS route ON route.sourceairport = airport.faa " ++
  "WHERE airport.faa = $destinationAirportCode AND route.stops = 0 " ++
  "LIMIT $LIMIT OFFSET $OFFSET"

/-- One route document's contribution to the join: it matches when its
`sourceairport` equals the airport's `faa` and its `stops` equals 0, and
then contributes its `destinationairport`. -/
def routeConnMatch (faa : String) (r : Json) : Option String :=
  match r with
  | .obj rfields =>
    match lookupKey rfields "sourceairport" with
    | some (.str src) =>
      match lookupKey rfields "stops" with
      | some (.num stops) =>
        match lookupKey rfields "destinationairport" with
        | some (.str dest) =>
          if src = faa ∧ stops = 0 then some dest else none
        | _ => none
      | _ => none
    | _ => none
  | _ => none

/-- The `JOIN`'s contribution of one airport document: when its `faa`
matches the code, the destinations of its zero-stop outgoing routes. -/
def airportConnMatches (routes : List Json) (code : String) (a : Json) :
    List String :=
  match a with
  | .obj afields =>
    match lookupKey afields "faa" with
    | some (.str faa) =>
      if faa = code then routes.filterMap (routeConnMatch faa) else []
    | _ => []
  | _ => []

/-- The row set of the direct-connections query before pagination: the
distinct `destinationairport` values over the join; the handler then
reads each row's `destinationairport` as a string. -/
def directConnMatches (airports routes : List Json) (code : String) :
    List String :=
  (airports.flatMap (airportConnMatches routes code)).dedup

/-- `GET /api/v1/airport/direct-connections`: `getDatabase()` first, then
the falsy check on `destinationAirportCode` (absent or empty → 400), then
the one SQL++ query; any throw maps to 500.  Returns the response with
the trace of store interactions. -/
def directConnectionsGET (conn : Bool) (airports routes : List Json)
    (params : List (String × String)) : Response × List StoreEv :=
  if conn then
    let code := (lookupParam params "destinationAirportCode").getD ""
    if code = "" then
      (⟨400, .obj [("message", .str "Destination airport code is required")]⟩,
       [.connect])
    else
      match queryEval (directConnMatches airports routes code)
              (effParam params "limit" 10) (effParam params "offset" 0) with
      | some rows => (⟨200, .arr (rows.map Json.str)⟩, [.connect, .query])
      | none =>
        (⟨500, .obj [("message", .str "An error occurred while fetching connections")]⟩,
         [.connect, .query])
  else
    (⟨500, .obj [("message", .str "An error occurred while fetching connections")]⟩,
     [.connect])

/-- Does a hotel document satisfy one `AND field = $VALUE` condition?  The
handler adds the condition only for a present, non-empty (truthy) filter
value. -/
def hotelFieldCond (v : Option String) (doc : Json) (k : String) : Bool :=
  match v with
  | none => true
  | some s =>
    if s = "" then true
    else
      match doc with
      | .obj fs =>
        match lookupKey fs k with
        | some (.str t) => t = s
        | _ => false
      | _ => false

/-- The `WHERE 1=1 AND ...` filter built by the hotel filter handler. -/
def hotelMatches (h : THotel) (doc : Json) : Bool :=
  hotelFieldCond h.name doc "name" &&
  hotelFieldCond h.title doc "title" &&
  hotelFieldCond h.description doc "description" &&
  hotelFieldCond h.country doc "country" &&
  hotelFieldCond h.city doc "city" &&
  hotelFieldCond h.state doc "state"

/-- `GET /api/v1/hotel/filter`: `Object.fromEntries(searchParams)` gives
an object whose values are all strings; it is parsed with
`HotelSchema.parse` (`ZodError` → 400 `Invalid request parameters`), the
present truthy fields become equality conditions, pagination comes from
the same raw params, and any other failure maps to 500. -/
def hotelFilterGET (conn : Bool) (hotels : List Json)
    (params : List (String × String)) : Response :=
  match HotelSchema.parse (.obj (params.map (fun q => (q.1, Json.str q.2)))) with
  | .error issues =>
    ⟨400, .obj [("error", .str "Invalid request parameters"),
                ("message", encodeIssues issues)]⟩
  | .ok h =>
    if conn then
      match queryEval (hotels.filter (hotelMatches h))
              (effParam params "limit" 10) (effParam params "offset" 0) with
      | some rows => ⟨200, .arr rows⟩
      | none => ⟨500, .obj [("error", .str "Internal server error")]⟩
    else ⟨500, .obj [("error", .str "Internal server error")]⟩

/-! ## Helper lemmas -/

theorem lookupKey_append_of_none {st : Store} {k : String} {v : Json}
    (h : lookupKey st k = none) : lookupKey (st ++ [(k, v)]) k = some v := by
  induction st with
  | nil => simp [lookupKey]
  | cons hd t ih =>
    obtain ⟨k0, v0⟩ := hd
    by_cases hk : k0 = k
    · simp [lookupKey, hk] at h
    · simp [lookupKey, hk] at h ⊢
      exact ih h

theorem storeUpsert_idem (st : Store) (k : String) (v : Json) :
    storeUpsert (storeUpsert st k v) k v = storeUpsert st k v := by
  induction st with
  | nil => simp [storeUpsert]
  | cons hd t ih =>
    obtain ⟨k0, v0⟩ := hd
    by_cases hk : k0 = k
    · simp [storeUpsert, hk]
    · simp [storeUpsert, hk, ih]

theorem lookupKey_storeUpsert_self (st : Store) (k : String) (v : Json) :
    lookupKey (storeUpsert st k v) k = some v := by
  induction st with
  | nil => simp [storeUpsert, lookupKey]
  | cons hd t ih =>
    obtain ⟨k0, v0⟩ := hd
    by_cases hk : k0 = k
    · simp [storeUpsert, hk, lookupKey]
    · simp [storeUpsert, hk, lookupKey, ih]

/-- The schema-normalised form of an airline payload: the serialisation of
its `AirlineSchema.parse` result, when validation passes. -/
def normalizeAirline (p : Json) : Option Json :=
  match AirlineSchema.parse p with
  | .ok a => some (encodeAirline a)
  | .error _ => none

/-- The concrete airline document of the quickstart's own test data. -/
def sampleAirline : TAirline :=
  ⟨some "MILE-AIR", "United States", some "Q5", "MLA", 10, "40-Mile Air", "airline"⟩

/-- A concrete valid airline request body. -/
def sampleAirlineBody : Json :=
  .obj [("callsign", .str "MILE-AIR"), ("country", .str "United States"),
        ("iata", .str "Q5"), ("icao", .str "MLA"), ("id", .num 10),
        ("name", .str "40-Mile Air"), ("type", .str "airline")]

/-! ## C1 — create on an existing key -/

/-- C1 counterexample: the claim quantifies over *every* payload P, but the
handler validates the body before touching the store, so an invalid
payload at an already-populated key returns 400, not 409. -/
theorem c1_counterexample :
    (airlinePOST true [("airline_10", encodeAirline sampleAirline)]
      "airline_10" (Json.obj [])).1.status = 400 ∧
    ¬ (airlinePOST true [("airline_10", encodeAirline sampleAirline)]
      "airline_10" (Json.obj [])).1.status = 409 := by
  constructor <;> decide

/-- C1 (amended): for every key K that already holds a document and every
payload P that passes schema validation, `POST /api/v1/airline/{airlineId}`
returns 409 with body `{message: "Airline already exists", error: "Airline
already exists"}` and leaves the store — in particular the document at K —
unchanged. -/
theorem c1_create_no_clobber (st : Store) (k : String) (p : Json)
    (a : TAirline) (d : Json)
    (hp : AirlineSchema.parse p = .ok a) (hk : lookupKey st k = some d) :
    airlinePOST true st k p =
      (⟨409, .obj [("message", .str "Airline already exists"),
                   ("error", .str "Airline already exists")]⟩, st) := by
  simp [airlinePOST, hp, storeInsert, hk]

/-- C1 witness: the amended theorem at the quickstart's concrete data. -/
theorem c1_witness :
    AirlineSchema.parse sampleAirlineBody = .ok sampleAirline ∧
    lookupKey [("airline_10", encodeAirline sampleAirline)] "airline_10" =
      some (encodeAirline sampleAirline) ∧
    airlinePOST true [("airline_10", encodeAirline sampleAirline)]
        "airline_10" sampleAirlineBody =
      (⟨409, .obj [("message", .str "Airline already exists"),
                   ("error", .str "Airline already exists")]⟩,
       [("airline_10", encodeAirline sampleAirline)]) :=
  ⟨rfl, rfl,
   c1_create_no_clobber [("airline_10", encodeAirline sampleAirline)]
     "airline_10" sampleAirlineBody sampleAirline
     (encodeAirline sampleAirline) rfl rfl⟩

/-! ## C2 — idempotence of upsert, and upsert never 404 -/

/-- C2: for a payload passing validation, upserting twice at the same key
gives the same stored document and literally the same 200 response and
store state both times (response equality is up to CAS metadata, which the
model keeps opaque); and for *any* payload, connection state and key, the
PUT handler never returns 404. -/
theorem c2_upsert_idempotent (conn : Bool) (st : Store) (k : String)
    (p : Json) (a : TAirline) :
    (AirlineSchema.parse p = .ok a →
      (airlinePUT true st k p).1.status = 200 ∧
      airlinePUT true (airlinePUT true st k p).2 k p = airlinePUT true st k p ∧
      storeGet (airlinePUT true st k p).2 k = some (encodeAirline a) ∧
      storeGet (airlinePUT true (airlinePUT true st k p).2 k p).2 k =
        some (encodeAirline a)) ∧
    (airlinePUT conn st k p).1.status ≠ 404 := by
  constructor
  · intro hp
    refine ⟨by simp [airlinePUT, hp], ?_, ?_, ?_⟩
    · simp [airlinePUT, hp, storeUpsert_idem]
    · simp [airlinePUT, hp, storeGet, lookupKey_storeUpsert_self]
    · simp [airlinePUT, hp, storeGet, storeUpsert_idem, lookupKey_storeUpsert_self]
  · cases hp : AirlineSchema.parse p with
    | error issues => simp [airlinePUT, hp]
    | ok a2 => cases conn <;> simp [airlinePUT, hp]

/-- C2 witness: the theorem at the concrete sample payload. -/
theorem c2_witness :
    AirlineSchema.parse sampleAirlineBody = .ok sampleAirline ∧
    (airlinePUT true [] "airline_10" sampleAirlineBody).1.status = 200 ∧
    airlinePUT true (airlinePUT true [] "airline_10" sampleAirlineBody).2
        "airline_10" sampleAirlineBody =
      airlinePUT true [] "airline_10" sampleAirlineBody ∧
    (airlinePUT false [] "airline_10" sampleAirlineBody).1.status ≠ 404 :=
  ⟨rfl,
   ((c2_upsert_idempotent false [] "airline_10" sampleAirlineBody
       sampleAirline).1 rfl).1,
   ((c2_upsert_idempotent false [] "airline_10" sampleAirlineBody
       sampleAirline).1 rfl).2.1,
   (c2_upsert_idempotent false [] "airline_10" sampleAirlineBody
       sampleAirline).2⟩

/-! ## C3 — create/fetch round trip -/

/-- C3: for a key with no existing document and a payload passing schema
validation, create returns 201 and a subsequent fetch returns 200 with
body exactly the schema-normalised form of the payload. -/
theorem c3_round_trip (st : Store) (k : String) (p : Json) (a : TAirline)
    (hp : AirlineSchema.parse p = .ok a) (hk : lookupKey st k = none) :
    (airlinePOST true st k p).1.status = 201 ∧
    normalizeAirline p = some (encodeAirline a) ∧
    airlineGET true (airlinePOST true st k p).2 k = ⟨200, encodeAirline a⟩ := by
  refine ⟨by simp [airlinePOST, hp, storeInsert, hk], by simp [normalizeAirline, hp], ?_⟩
  simp [airlinePOST, hp, storeInsert, hk, airlineGET, storeGet,
        lookupKey_append_of_none hk]

/-- C3 witness: the round trip at the concrete sample payload. -/
theorem c3_witness :
    AirlineSchema.parse sampleAirlineBody = .ok sampleAirline ∧
    lookupKey [] "airline_10" = none ∧
    (airlinePOST true [] "airline_10" sampleAirlineBody).1.status = 201 ∧
    airlineGET true (airlinePOST true [] "airline_10" sampleAirlineBody).2
      "airline_10" = ⟨200, encodeAirline sampleAirline⟩ :=
  ⟨rfl, rfl,
   (c3_round_trip [] "airline_10" sampleAirlineBody sampleAirline rfl rfl).1,
   (c3_round_trip [] "airline_10" sampleAirlineBody sampleAirline rfl rfl).2.2⟩

/-! ## C4 — validation completeness -/

theorem zodReqString_of_missing {fs : List (String × Json)} {k : String}
    (h : lookupKey fs k = none) :
    zodReqString fs k = .error [⟨[k], "Required"⟩] := by
  simp [zodReqString, h]

theorem zodReqNumber_of_missing {fs : List (String × Json)} {k : String}
    (h : lookupKey fs k = none) :
    zodReqNumber fs k = .error [⟨[k], "Required"⟩] := by
  simp [zodReqNumber, h]

/-- Each missing required field of `AirlineSchema` contributes its own
`Required` issue at its own path. -/
theorem mem_airlineIssues_of_missing {fs : List (String × Json)} {f : String}
    (hreq : f ∈ airlineRequiredFields) (hmiss : lookupKey fs f = none) :
    (⟨[f], "Required"⟩ : ZodIssue) ∈ airlineIssues fs := by
  simp only [airlineRequiredFields, List.mem_cons, List.mem_singleton,
    List.not_mem_nil, or_false] at hreq
  rcases hreq with h | h | h | h | h <;> subst h <;>
    simp [airlineIssues, zodReqString_of_missing hmiss,
      zodReqNumber_of_missing hmiss, errList]

/-- A nodup list included in `l` has no more elements than `l.dedup`. -/
theorem nodup_length_le_dedup {α : Type} [DecidableEq α] {s l : List α}
    (hn : s.Nodup) (hs : ∀ x ∈ s, x ∈ l) : s.length ≤ l.dedup.length :=
  (hn.subperm (fun x hx => (List.mem_dedup).2 (hs x hx))).length_le

/-- C4: a request body missing the (nonempty, distinct) set S of required
fields of `AirlineSchema` makes both the create and the upsert handler
return 400 whose `error` field carries the full issue list; that list has
one `Required` issue per missing field, hence at least `S.length` distinct
field paths — never a single collapsed message. -/
theorem c4_validation_completeness (fs : List (String × Json))
    (S : List String) (conn : Bool) (st : Store) (k : String)
    (hne : S ≠ []) (hnd : S.Nodup)
    (hreq : ∀ f ∈ S, f ∈ airlineRequiredFields)
    (hmiss : ∀ f ∈ S, lookupKey fs f = none) :
    ∃ issues, AirlineSchema.parse (Json.obj fs) = .error issues ∧
      (∀ f ∈ S, (⟨[f], "Required"⟩ : ZodIssue) ∈ issues) ∧
      S.length ≤ ((issues.map ZodIssue.path).dedup).length ∧
      (airlinePOST conn st k (Json.obj fs)).1 =
        ⟨400, .obj [("message", .str "Invalid request body"),
                    ("error", encodeIssues issues)]⟩ ∧
      (airlinePUT conn st k (Json.obj fs)).1 =
        ⟨400, .obj [("message", .str "Invalid request body"),
                    ("error", encodeIssues issues)]⟩ := by
  obtain ⟨f0, hf0⟩ := List.exists_mem_of_ne_nil S hne
  have hmem : ∀ f ∈ S, (⟨[f], "Required"⟩ : ZodIssue) ∈ airlineIssues fs :=
    fun f hf => mem_airlineIssues_of_missing (hreq f hf) (hmiss f hf)
  have hissne : airlineIssues fs ≠ [] := by
    intro h
    have := hmem f0 hf0
    rw [h] at this
    exact absurd this (List.not_mem_nil _)
  have hparse : AirlineSchema.parse (Json.obj fs) = .error (airlineIssues fs) := by
    simp [AirlineSchema.parse, hissne]
  refine ⟨airlineIssues fs, hparse, hmem, ?_, by simp [airlinePOST, hparse],
    by simp [airlinePUT, hparse]⟩
  have hlen : (S.map (fun f => ([f] : List String))).length ≤
      ((airlineIssues fs).map ZodIssue.path).dedup.length := by
    apply nodup_length_le_dedup
    · exact hnd.map (fun a b h => by simpa using h)
    · intro x hx
      rw [List.mem_map] at hx
      obtain ⟨f, hf, hfx⟩ := hx
      rw [List.mem_map]
      exact ⟨⟨[f], "Required"⟩, hmem f hf, hfx⟩
  simpa using hlen

/-- C4 witness: a body holding only `name` misses the four required fields
`country`, `icao`, `id`, `type`; the issue list shows all four paths. -/
theorem c4_witness :
    (["country", "icao", "id", "type"] : List String) ≠ [] ∧
    (["country", "icao", "id", "type"] : List String).Nodup ∧
    (∀ f ∈ (["country", "icao", "id", "type"] : List String),
      f ∈ airlineRequiredFields) ∧
    (∀ f ∈ (["country", "icao", "id", "type"] : List String),
      lookupKey [("name", Json.str "40-Mile Air")] f = none) ∧
    ∃ issues,
      AirlineSchema.parse (Json.obj [("name", Json.str "40-Mile Air")]) =
        .error issues ∧
      (∀ f ∈ (["country", "icao", "id", "type"] : List String),
        (⟨[f], "Required"⟩ : ZodIssue) ∈ issues) ∧
      (["country", "icao", "id", "type"] : List String).length ≤
        ((issues.map ZodIssue.path).dedup).length ∧
      (airlinePOST true [] "airline_10"
          (Json.obj [("name", Json.str "40-Mile Air")])).1 =
        ⟨400, .obj [("message", .str "Invalid request body"),
                    ("error", encodeIssues issues)]⟩ ∧
      (airlinePUT true [] "airline_10"
          (Json.obj [("name", Json.str "40-Mile Air")])).1 =
        ⟨400, .obj [("message", .str "Invalid request body"),
                    ("error", encodeIssues issues)]⟩ := by
  refine ⟨by decide, by decide, by decide,
    by intro f hf; fin_cases hf <;> rfl, ?_⟩
  exact c4_validation_completeness [("name", Json.str "40-Mile Air")]
    ["country", "icao", "id", "type"] true [] "airline_10"
    (by decide) (by decide) (by decide)
    (by intro f hf; fin_cases hf <;> rfl)

/-! ## C8 — the airport validation schema -/

theorem zodReqString_eq_ok {fs : List (String × Json)} {k : String}
    (h : errList (zodReqString fs k) = []) :
    ∃ s, zodReqString fs k = .ok s ∧ lookupKey fs k = some (.str s) := by
  revert h
  unfold zodReqString
  cases hl : lookupKey fs k with
  | none => intro h; simp [errList] at h
  | some v => cases v <;> intro h <;> simp [errList] at h ⊢

theorem zodReqNumber_eq_ok {fs : List (String × Json)} {k : String}
    (h : errList (zodReqNumber fs k) = []) :
    ∃ n, zodReqNumber fs k = .ok n ∧ lookupKey fs k = some (.num n) := by
  revert h
  unfold zodReqNumber
  cases hl : lookupKey fs k with
  | none => intro h; simp [errList] at h
  | some v => cases v <;> intro h <;> simp [errList] at h ⊢

/-- A failing `GeoSchema.parse` always carries at least one issue. -/
theorem geoParse_error_ne_nil {v : Json} {issues : List ZodIssue}
    (h : GeoSchema.parse v = .error issues) : issues ≠ [] := by
  intro hnil
  subst hnil
  cases v with
  | obj gfs =>
    by_cases hi : geoIssues gfs = []
    · simp [GeoSchema.parse, hi] at h
    · simp [GeoSchema.parse, hi] at h
  | str s => simp [GeoSchema.parse] at h
  | num n => simp [GeoSchema.parse] at h
  | bool b => simp [GeoSchema.parse] at h
  | null => simp [GeoSchema.parse] at h
  | arr xs => simp [GeoSchema.parse] at h

/-- Inversion of a successful `GeoSchema.parse`: the value was an object
carrying all three numeric fields. -/
theorem geoParse_eq_ok {v : Json} {g : TGeo}
    (h : GeoSchema.parse v = .ok g) :
    ∃ gfs, v = .obj gfs ∧
      lookupKey gfs "alt" = some (.num g.alt) ∧
      lookupKey gfs "lat" = some (.num g.lat) ∧
      lookupKey gfs "lon" = some (.num g.lon) := by
  cases v with
  | obj gfs =>
    by_cases hi : geoIssues gfs = []
    · have hsplit := hi
      simp only [geoIssues, List.append_eq_nil] at hsplit
      obtain ⟨⟨halt, hlat⟩, hlon⟩ := hsplit
      obtain ⟨na, hoka, hla⟩ := zodReqNumber_eq_ok halt
      obtain ⟨nb, hokb, hlb⟩ := zodReqNumber_eq_ok hlat
      obtain ⟨nc, hokc, hlc⟩ := zodReqNumber_eq_ok hlon
      simp only [GeoSchema.parse] at h
      rw [if_pos hi] at h
      injection h with h
      subst h
      refine ⟨gfs, rfl, ?_, ?_, ?_⟩
      · simpa [hoka, exGet] using hla
      · simpa [hokb, exGet] using hlb
      · simpa [hokc, exGet] using hlc
    · simp [GeoSchema.parse, hi] at h
  | str s => simp [GeoSchema.parse] at h
  | num n => simp [GeoSchema.parse] at h
  | bool b => simp [GeoSchema.parse] at h
  | null => simp [GeoSchema.parse] at h
  | arr xs => simp [GeoSchema.parse] at h

theorem zodReqGeo_eq_ok {fs : List (String × Json)}
    (h : errList (zodReqGeo fs) = []) :
    ∃ g, zodReqGeo fs = .ok g ∧
      ∃ gfs, lookupKey fs "geo" = some (.obj gfs) ∧
        lookupKey gfs "alt" = some (.num g.alt) ∧
        lookupKey gfs "lat" = some (.num g.lat) ∧
        lookupKey gfs "lon" = some (.num g.lon) := by
  unfold zodReqGeo at h ⊢
  cases hl : lookupKey fs "geo" with
  | none => simp [hl, errList] at h
  | some v =>
    simp only [hl] at h ⊢
    rcases hp : GeoSchema.parse v with issues | g
    · rw [hp] at h
      simp only [errList, nestIssues, List.map_eq_nil_iff] at h
      exact absurd h (geoParse_error_ne_nil hp)
    · obtain ⟨gfs, rfl, ha, hb, hc⟩ := geoParse_eq_ok hp
      exact ⟨g, rfl, gfs, rfl, ha, hb, hc⟩

/-- C8 counterexample: the claim holds `airportname`, `icao`, `tz` and
`geo` to be optional, but `AirportSchema` requires all of them — the
payload carrying exactly `city`, `country`, `faa` is rejected with one
`Required` issue per claimed-optional field, and the create handler
answers 400 instead of accepting it. -/
theorem c8_counterexample :
    AirportSchema.parse (Json.obj [("city", .str "San Francisco"),
        ("country", .str "United States"), ("faa", .str "SFO")]) =
      .error [⟨["airportname"], "Required"⟩, ⟨["icao"], "Required"⟩,
              ⟨["tz"], "Required"⟩, ⟨["geo"], "Required"⟩] ∧
    (airportPOST true [] "airport_1254"
        (Json.obj [("city", .str "San Francisco"),
          ("country", .str "United States"), ("faa", .str "SFO")])).1.status = 400 :=
  ⟨rfl, rfl⟩

/-- C8 (amended): `AirportSchema` validation accepts a payload only if all
seven fields are present — `airportname`, `city`, `country`, `faa`,
`icao`, `tz` as strings and `geo` as an object carrying all three numeric
fields `lat`, `lon`, `alt`; none of them is optional. -/
theorem c8_airport_schema_requires_all (fs : List (String × Json))
    (a : TAirport) (h : AirportSchema.parse (Json.obj fs) = .ok a) :
    lookupKey fs "airportname" = some (.str a.airportname) ∧
    lookupKey fs "city" = some (.str a.city) ∧
    lookupKey fs "country" = some (.str a.country) ∧
    lookupKey fs "faa" = some (.str a.faa) ∧
    lookupKey fs "icao" = some (.str a.icao) ∧
    lookupKey fs "tz" = some (.str a.tz) ∧
    ∃ gfs, lookupKey fs "geo" = some (.obj gfs) ∧
      lookupKey gfs "alt" = some (.num a.geo.alt) ∧
      lookupKey gfs "lat" = some (.num a.geo.lat) ∧
      lookupKey gfs "lon" = some (.num a.geo.lon) := by
  by_cases hi : airportIssues fs = []
  · have hsplit := hi
    simp only [airportIssues, List.append_eq_nil] at hsplit
    obtain ⟨⟨⟨⟨⟨⟨h1, h2⟩, h3⟩, h4⟩, h5⟩, h6⟩, h7⟩ := hsplit
    obtain ⟨s1, hok1, hl1⟩ := zodReqString_eq_ok h1
    obtain ⟨s2, hok2, hl2⟩ := zodReqString_eq_ok h2
    obtain ⟨s3, hok3, hl3⟩ := zodReqString_eq_ok h3
    obtain ⟨s4, hok4, hl4⟩ := zodReqString_eq_ok h4
    obtain ⟨s5, hok5, hl5⟩ := zodReqString_eq_ok h5
    obtain ⟨s6, hok6, hl6⟩ := zodReqString_eq_ok h6
    obtain ⟨g, hokg, gfs, hlg, hga, hgb, hgc⟩ := zodReqGeo_eq_ok h7
    simp only [AirportSchema.parse] at h
    rw [if_pos hi] at h
    injection h with h
    subst h
    refine ⟨?_, ?_, ?_, ?_, ?_, ?_, gfs, hlg, ?_, ?_, ?_⟩
    · simpa [hok1, exGet] using hl1
    · simpa [hok2, exGet] using hl2
    · simpa [hok3, exGet] using hl3
    · simpa [hok4, exGet] using hl4
    · simpa [hok5, exGet] using hl5
    · simpa [hok6, exGet] using hl6
    · simpa [hokg, exGet] using hga
    · simpa [hokg, exGet] using hgb
    · simpa [hokg, exGet] using hgc
  · simp [AirportSchema.parse, hi] at h

/-- The field list of a concrete full airport payload (SFO). -/
def sampleAirportFields : List (String × Json) :=
  [("airportname", .str "San Francisco Intl"),
   ("city", .str "San Francisco"),
   ("country", .str "United States"),
   ("faa", .str "SFO"),
   ("icao", .str "KSFO"),
   ("tz", .str "America/Los_Angeles"),
   ("geo", .obj [("alt", .num 13), ("lat", .num 37), ("lon", .num (-122))])]

/-- The parsed form of `sampleAirportFields`. -/
def sampleAirport : TAirport :=
  ⟨"San Francisco Intl", "San Francisco", "United States", "SFO",
   "KSFO", "America/Los_Angeles", ⟨13, 37, -122⟩⟩

/-- C8 witness: the amended theorem at a concrete accepted payload. -/
theorem c8_witness :
    AirportSchema.parse (Json.obj sampleAirportFields) = Except.ok sampleAirport ∧
    lookupKey sampleAirportFields "tz" = some (.str "America/Los_Angeles") := by
  have h : AirportSchema.parse (Json.obj sampleAirportFields) =
      Except.ok sampleAirport := rfl
  exact ⟨h,
    (c8_airport_schema_requires_all sampleAirportFields sampleAirport h).2.2.2.2.2.1⟩

/-! ## C5 — the missing-filter guard and store access -/

/-- C5 counterexample: with `destinationAirportCode` absent the
direct-connections handler does produce a 400, but only after a store
interaction (`await getDatabase()` is the first statement of the `try`
block), so its trace is nonempty at that point; and when acquiring the
database handle fails the handler answers 500, not 400. -/
theorem c5_counterexample :
    (directConnectionsGET true [] [] [("limit", "10"), ("offset", "0")]).2 ≠
      ([] : List StoreEv) ∧
    (directConnectionsGET true [] [] [("limit", "10"), ("offset", "0")]).1.status = 400 ∧
    (directConnectionsGET false [] [] [("limit", "10"), ("offset", "0")]).1.status = 500 := by
  refine ⟨by decide, rfl, rfl⟩

/-- C5 (amended): when the mandatory `destinationAirportCode` parameter is
absent, both required-filter handlers return 400 with the descriptive
message and never submit a query to the store — but only provided the
database handle was acquired: the `getDatabase()` call precedes the check
(the trace up to the 400 is exactly `[connect]`), and if it fails the
response is 500 instead. -/
theorem c5_missing_filter_guard (conn : Bool)
    (airports routes joinRows : List Json) (params : List (String × String))
    (h : lookupParam params "destinationAirportCode" = none) :
    (conn = true →
      directConnectionsGET conn airports routes params =
        (⟨400, .obj [("message", .str "Destination airport code is required")]⟩,
         [.connect]) ∧
      toAirportGET conn joinRows params =
        (⟨400, .obj [("message", .str "Destination airport code is required")]⟩,
         [.connect])) ∧
    (conn = false →
      (directConnectionsGET conn airports routes params).1.status = 500 ∧
      (toAirportGET conn joinRows params).1.status = 500) := by
  constructor
  · rintro rfl
    constructor <;> simp [directConnectionsGET, toAirportGET, h]
  · rintro rfl
    constructor <;> simp [directConnectionsGET, toAirportGET]

/-- C5 witness: the amended theorem at a concrete parameter list. -/
theorem c5_witness :
    lookupParam [("limit", "10")] "destinationAirportCode" = none ∧
    directConnectionsGET true [] [] [("limit", "10")] =
      (⟨400, .obj [("message", .str "Destination airport code is required")]⟩,
       [.connect]) ∧
    toAirportGET true [] [("limit", "10")] =
      (⟨400, .obj [("message", .str "Destination airport code is required")]⟩,
       [.connect]) :=
  ⟨rfl,
   ((c5_missing_filter_guard true [] [] [] [("limit", "10")] rfl).1 rfl).1,
   ((c5_missing_filter_guard true [] [] [] [("limit", "10")] rfl).1 rfl).2⟩

/-! ## C6 — non-numeric `limit`/`offset` -/

/-- C6 counterexample: the claim predicts that `limit=abc` is coerced to
the default 10 and the request proceeds (here: 200 with 10 of the 20
rows); instead JavaScript `Number("abc")` is `NaN`, `NaN` is what reaches
the query parameters, and the request fails with 500. -/
theorem c6_counterexample :
    effParam [("limit", "abc")] "limit" 10 = none ∧
    ¬ effParam [("limit", "abc")] "limit" 10 = some 10 ∧
    (airlineListGET true
      (List.replicate 20 (Json.obj [("country", Json.str "United States")]))
      [("limit", "abc")]).status = 500 ∧
    ¬ (airlineListGET true
      (List.replicate 20 (Json.obj [("country", Json.str "United States")]))
      [("limit", "abc")]).status = 200 := by
  refine ⟨by decide, by decide, rfl, by decide⟩

/-- C6 (amended): an *absent* `limit`/`offset` defaults to 10/0, but a
present non-numeric value is converted by JavaScript `Number()` to `NaN`
(`none` here), which is what gets passed towards the store query, and the
list request then fails with 500 — the handler does not fall back to the
default. -/
theorem c6_nonnumeric_pagination (rows : List Json)
    (params : List (String × String)) (s : String) :
    (lookupParam params "limit" = some s → jsNumber s = none →
      effParam params "limit" 10 = none ∧
      airlineListGET true rows params =
        ⟨500, .obj [("message", .str "An error occurred while fetching airlines")]⟩) ∧
    (lookupParam params "offset" = some s → jsNumber s = none →
      effParam params "offset" 0 = none ∧
      airlineListGET true rows params =
        ⟨500, .obj [("message", .str "An error occurred while fetching airlines")]⟩) ∧
    (lookupParam params "limit" = none → effParam params "limit" 10 = some 10) ∧
    (lookupParam params "offset" = none → effParam params "offset" 0 = some 0) := by
  refine ⟨?_, ?_, ?_, ?_⟩
  · intro hl hn
    have he : effParam params "limit" 10 = none := by simp [effParam, hl, hn]
    exact ⟨he, by simp [airlineListGET, he, queryEval]⟩
  · intro hl hn
    have he : effParam params "offset" 0 = none := by simp [effParam, hl, hn]
    refine ⟨he, ?_⟩
    rcases hlim : effParam params "limit" 10 with _ | l <;>
      simp [airlineListGET, he, hlim, queryEval]
  · intro hl; simp [effParam, hl]
  · intro hl; simp [effParam, hl]

/-- C6 witness: the amended theorem at `limit=abc` and at absent params. -/
theorem c6_witness :
    lookupParam [("limit", "abc")] "limit" = some "abc" ∧
    jsNumber "abc" = none ∧
    airlineListGET true [] [("limit", "abc")] =
      ⟨500, .obj [("message", .str "An error occurred while fetching airlines")]⟩ ∧
    lookupParam ([] : List (String × String)) "limit" = none ∧
    effParam [] "limit" 10 = some 10 :=
  ⟨rfl, rfl,
   ((c6_nonnumeric_pagination [] [("limit", "abc")] "abc").1 rfl rfl).2,
   rfl,
   (c6_nonnumeric_pagination [] [] "abc").2.2.1 rfl⟩

/-! ## C7 — pagination bound -/

/-- Inversion of a successful store query: the pagination bounds were
genuine non-negative numbers and the rows are a drop/take slice. -/
theorem queryEval_eq_some_inv {α : Type} {rows : List α} {lim off : Option Int}
    {rs : List α} (h : queryEval rows lim off = some rs) :
    ∃ l o, lim = some l ∧ off = some o ∧ 0 ≤ l ∧ 0 ≤ o ∧
      rs = (rows.drop o.toNat).take l.toNat := by
  rcases lim with _ | l
  · simp [queryEval] at h
  · rcases off with _ | o
    · simp [queryEval] at h
    · by_cases hpos : 0 ≤ l ∧ 0 ≤ o
      · simp [queryEval, hpos] at h
        exact ⟨l, o, rfl, rfl, hpos.1, hpos.2, h.symm⟩
      · simp [queryEval, hpos] at h

/-- A successful query with numeric limit `L` returns at most `L` rows. -/
theorem queryEval_some_length {α : Type} {rows : List α} {L : Int}
    {off : Option Int} {rs : List α}
    (h : queryEval rows (some L) off = some rs) : rs.length ≤ L.toNat := by
  obtain ⟨l, o, hl, _, _, _, hrs⟩ := queryEval_eq_some_inv h
  obtain rfl : L = l := by injection hl
  rw [hrs, List.length_take]
  exact Nat.min_le_left _ _

/-- A successful query returns a sublist slice of the matching rows. -/
theorem queryEval_some_sublist {α : Type} {rows : List α} {lim off : Option Int}
    {rs : List α} (h : queryEval rows lim off = some rs) :
    List.Sublist rs rows := by
  obtain ⟨l, o, _, _, _, _, hrs⟩ := queryEval_eq_some_inv h
  rw [hrs]
  exact ((rows.drop o.toNat).take_sublist l.toNat).trans (rows.drop_sublist o.toNat)

/-- A 200 from the airline list handler comes from a successful query over
the country-filtered, projected rows. -/
theorem airlineListGET_200_inv {conn : Bool} {airlines : List Json}
    {params : List (String × String)} {rs : List Json}
    (h : airlineListGET conn airlines params = ⟨200, .arr rs⟩) :
    queryEval ((if (lookupParam params "country").getD "" = "" then airlines
        else airlines.filter
          (airlineCountryIs ((lookupParam params "country").getD ""))).map
        projectAirlineRow)
      (effParam params "limit" 10) (effParam params "offset" 0) = some rs := by
  cases conn with
  | false => simp [airlineListGET] at h
  | true =>
    simp only [airlineListGET, if_true] at h
    split at h
    · next rows heq =>
      simp only [Response.mk.injEq, Json.arr.injEq, true_and] at h
      exact h ▸ heq
    · next heq => simp at h

/-- A 200 from the to-airport handler comes from a successful query. -/
theorem toAirportGET_200_inv {conn : Bool} {joinRows : List Json}
    {params : List (String × String)} {rs : List Json}
    (h : (toAirportGET conn joinRows params).1 = ⟨200, .arr rs⟩) :
    queryEval joinRows (effParam params "limit" 10)
      (effParam params "offset" 0) = some rs := by
  cases conn with
  | false => simp [toAirportGET] at h
  | true =>
    simp only [toAirportGET, if_true] at h
    split at h
    · simp at h
    · split at h
      · next rows heq =>
        simp only [Response.mk.injEq, Json.arr.injEq, true_and] at h
        exact h ▸ heq
      · next heq => simp at h

/-- A 200 from the direct-connections handler comes from a successful
query over the matching connections, with a non-empty code. -/
theorem directConnectionsGET_200_inv {conn : Bool} {airports routes : List Json}
    {params : List (String × String)} {rs : List Json}
    (h : (directConnectionsGET conn airports routes params).1 = ⟨200, .arr rs⟩) :
    ∃ rows, (lookupParam params "destinationAirportCode").getD "" ≠ "" ∧
      queryEval (directConnMatches airports routes
          ((lookupParam params "destinationAirportCode").getD ""))
        (effParam params "limit" 10) (effParam params "offset" 0) = some rows ∧
      rs = rows.map Json.str := by
  cases conn with
  | false => simp [directConnectionsGET] at h
  | true =>
    simp only [directConnectionsGET, if_true] at h
    split at h
    · simp at h
    · next hcode =>
      split at h
      · next rows heq =>
        simp only [Response.mk.injEq, Json.arr.injEq, true_and] at h
        exact ⟨rows, hcode, heq, h.symm⟩
      · next heq => simp at h

/-- A 200 from the hotel filter handler comes from a successful query. -/
theorem hotelFilterGET_200_inv {conn : Bool} {hotels : List Json}
    {params : List (String × String)} {rs : List Json}
    (h : hotelFilterGET conn hotels params = ⟨200, .arr rs⟩) :
    ∃ rows, queryEval rows (effParam params "limit" 10)
      (effParam params "offset" 0) = some rs := by
  unfold hotelFilterGET at h
  split at h
  · simp at h
  · next hp =>
    cases conn with
    | false => simp at h
    | true =>
      simp only [if_true] at h
      split at h
      · next rows heq =>
        simp only [Response.mk.injEq, Json.arr.injEq, true_and] at h
        exact ⟨_, h ▸ heq⟩
      · next heq => simp at h

/-- C7: whenever a list/filter request carries the numeric limit `L` and
the handler answers 200 with a row array, that array holds at most `L`
rows — for the airline list, to-airport, direct-connections and hotel
filter handlers alike. -/
theorem c7_pagination_bound (conn : Bool)
    (airlines joinRows airports routes hotels : List Json)
    (params : List (String × String)) (L : Int) (rs : List Json)
    (hL : effParam params "limit" 10 = some L) :
    (airlineListGET conn airlines params = ⟨200, .arr rs⟩ →
      rs.length ≤ L.toNat) ∧
    ((toAirportGET conn joinRows params).1 = ⟨200, .arr rs⟩ →
      rs.length ≤ L.toNat) ∧
    ((directConnectionsGET conn airports routes params).1 = ⟨200, .arr rs⟩ →
      rs.length ≤ L.toNat) ∧
    (hotelFilterGET conn hotels params = ⟨200, .arr rs⟩ →
      rs.length ≤ L.toNat) := by
  refine ⟨?_, ?_, ?_, ?_⟩
  · intro h
    have heq := airlineListGET_200_inv h
    rw [hL] at heq
    exact queryEval_some_length heq
  · intro h
    have heq := toAirportGET_200_inv h
    rw [hL] at heq
    exact queryEval_some_length heq
  · intro h
    obtain ⟨rows, _, heq, hrs⟩ := directConnectionsGET_200_inv h
    rw [hL] at heq
    rw [hrs, List.length_map]
    exact queryEval_some_length heq
  · intro h
    obtain ⟨rows, heq⟩ := hotelFilterGET_200_inv h
    rw [hL] at heq
    exact queryEval_some_length heq

/-- C7 witness: requesting `limit=2` over five airline documents returns
exactly two rows, within the bound. -/
theorem c7_witness :
    effParam [("limit", "2")] "limit" 10 = some 2 ∧
    airlineListGET true (List.replicate 5 (Json.obj [])) [("limit", "2")] =
      ⟨200, .arr [Json.obj [], Json.obj []]⟩ ∧
    ([Json.obj [], Json.obj []] : List Json).length ≤ (2 : Int).toNat :=
  ⟨rfl, rfl,
   (c7_pagination_bound true (List.replicate 5 (Json.obj [])) [] [] [] []
     [("limit", "2")] 2 [Json.obj [], Json.obj []] rfl).1 rfl⟩

/-! ## C9 — semantics of the direct-connections result -/

/-- Inversion of a matching route: it is an object whose `sourceairport`
is the airport code, whose `stops` is 0, and whose `destinationairport`
is the produced value. -/
theorem routeConnMatch_eq_some {faa : String} {r : Json} {d : String}
    (h : routeConnMatch faa r = some d) :
    ∃ rfields, r = .obj rfields ∧
      lookupKey rfields "sourceairport" = some (.str faa) ∧
      lookupKey rfields "stops" = some (.num 0) ∧
      lookupKey rfields "destinationairport" = some (.str d) := by
  cases r with
  | obj rfields =>
    unfold routeConnMatch at h
    dsimp only at h
    rcases h1 : lookupKey rfields "sourceairport" with _ | v1
    · rw [h1] at h; simp at h
    · rw [h1] at h
      cases v1 with
      | str src =>
        rcases h2 : lookupKey rfields "stops" with _ | v2
        · rw [h2] at h; simp at h
        · rw [h2] at h
          cases v2 with
          | num stops =>
            rcases h3 : lookupKey rfields "destinationairport" with _ | v3
            · rw [h3] at h; simp at h
            · rw [h3] at h
              cases v3 with
              | str dest =>
                by_cases hc : src = faa ∧ stops = 0
                · obtain ⟨rfl, rfl⟩ := hc
                  simp only [and_self, if_true, Option.some.injEq] at h
                  subst h
                  exact ⟨rfields, rfl, h1, h2, h3⟩
                · simp [hc] at h
              | num n => simp at h
              | bool b => simp at h
              | null => simp at h
              | arr xs => simp at h
              | obj fs2 => simp at h
          | str s => simp at h
          | bool b => simp at h
          | null => simp at h
          | arr xs => simp at h
          | obj fs2 => simp at h
      | num n => simp at h
      | bool b => simp at h
      | null => simp at h
      | arr xs => simp at h
      | obj fs2 => simp at h
  | str s => simp [routeConnMatch] at h
  | num n => simp [routeConnMatch] at h
  | bool b => simp [routeConnMatch] at h
  | null => simp [routeConnMatch] at h
  | arr xs => simp [routeConnMatch] at h

/-- Inversion of an airport's contribution: the airport document carries
`faa = code` and every produced value comes from a matching route. -/
theorem mem_airportConnMatches {routes : List Json} {code : String}
    {a : Json} {d : String} (h : d ∈ airportConnMatches routes code a) :
    ∃ afields, a = .obj afields ∧
      lookupKey afields "faa" = some (.str code) ∧
      ∃ r ∈ routes, routeConnMatch code r = some d := by
  cases a with
  | obj afields =>
    unfold airportConnMatches at h
    dsimp only at h
    rcases h1 : lookupKey afields "faa" with _ | v1
    · rw [h1] at h; simp at h
    · rw [h1] at h
      cases v1 with
      | str faa =>
        by_cases hc : faa = code
        · subst hc
          simp only [if_true] at h
          rw [List.mem_filterMap] at h
          obtain ⟨r, hr, hmatch⟩ := h
          exact ⟨afields, rfl, h1, r, hr, hmatch⟩
        · simp [hc] at h
      | num n => simp at h
      | bool b => simp at h
      | null => simp at h
      | arr xs => simp at h
      | obj fs2 => simp at h
  | str s => simp [airportConnMatches] at h
  | num n => simp [airportConnMatches] at h
  | bool b => simp [airportConnMatches] at h
  | null => simp [airportConnMatches] at h
  | arr xs => simp [airportConnMatches] at h

/-- C9: a 200 answer of the direct-connections endpoint for code C is an
array of *distinct* strings, each of which is the `destinationairport` of
some route whose `sourceairport` equals the `faa` of an airport document
with `faa = C` and whose `stops` field equals 0 — the parameter named
`destinationAirportCode` is matched against `airport.faa` joined on
`route.sourceairport`, i.e. it acts as the source of the connections, and
routes with one or more stops never contribute. -/
theorem c9_direct_connections (conn : Bool) (airports routes : List Json)
    (params : List (String × String)) (C : String) (rs : List Json)
    (hC : lookupParam params "destinationAirportCode" = some C)
    (h : (directConnectionsGET conn airports routes params).1 = ⟨200, .arr rs⟩) :
    ∃ ds : List String, rs = ds.map Json.str ∧ ds.Nodup ∧
      ∀ d ∈ ds, ∃ afields, Json.obj afields ∈ airports ∧
        lookupKey afields "faa" = some (.str C) ∧
        ∃ rfields, Json.obj rfields ∈ routes ∧
          lookupKey rfields "sourceairport" = some (.str C) ∧
          lookupKey rfields "stops" = some (.num 0) ∧
          lookupKey rfields "destinationairport" = some (.str d) := by
  obtain ⟨rows, hcode, heq, hrs⟩ := directConnectionsGET_200_inv h
  rw [hC, Option.getD_some] at heq
  have hsub : List.Sublist rows (directConnMatches airports routes C) :=
    queryEval_some_sublist heq
  refine ⟨rows, hrs, (List.nodup_dedup _).sublist hsub, ?_⟩
  intro d hd
  have hd2 : d ∈ directConnMatches airports routes C := hsub.subset hd
  unfold directConnMatches at hd2
  rw [List.mem_dedup, List.mem_flatMap] at hd2
  obtain ⟨a, ha, hda⟩ := hd2
  obtain ⟨afields, rfl, hfaa, r, hr, hmatch⟩ := mem_airportConnMatches hda
  obtain ⟨rfields, rfl, hsrc, hstops, hdest⟩ := routeConnMatch_eq_some hmatch
  exact ⟨afields, ha, hfaa, rfields, hr, hsrc, hstops, hdest⟩

/-- Concrete airport collection for the C9 witness. -/
def sampleAirports : List Json :=
  [.obj [("faa", .str "JFK"), ("city", .str "New York")]]

/-- Concrete route collection for the C9 witness: one zero-stop route out
of JFK and one one-stop route that must not contribute. -/
def sampleRoutes : List Json :=
  [.obj [("sourceairport", .str "JFK"), ("stops", .num 0),
         ("destinationairport", .str "LAX")],
   .obj [("sourceairport", .str "JFK"), ("stops", .num 1),
         ("destinationairport", .str "SFO")]]

/-- C9 witness: the theorem at the concrete two-route collection; the
answer is exactly `["LAX"]`. -/
theorem c9_witness :
    lookupParam [("destinationAirportCode", "JFK")] "destinationAirportCode" =
      some "JFK" ∧
    (directConnectionsGET true sampleAirports sampleRoutes
        [("destinationAirportCode", "JFK")]).1 =
      ⟨200, .arr [Json.str "LAX"]⟩ ∧
    ∃ ds : List String, ([Json.str "LAX"] : List Json) = ds.map Json.str ∧
      ds.Nodup ∧
      ∀ d ∈ ds, ∃ afields, Json.obj afields ∈ sampleAirports ∧
        lookupKey afields "faa" = some (.str "JFK") ∧
        ∃ rfields, Json.obj rfields ∈ sampleRoutes ∧
          lookupKey rfields "sourceairport" = some (.str "JFK") ∧
          lookupKey rfields "stops" = some (.num 0) ∧
          lookupKey rfields "destinationairport" = some (.str d) :=
  ⟨rfl, rfl,
   c9_direct_connections true sampleAirports sampleRoutes
     [("destinationAirportCode", "JFK")] "JFK" [Json.str "LAX"] rfl rfl⟩

/-! ## C10 — unreachability of the hotel filter's 400 branch -/

/-- Any value found in an object built from query-string entries is a
string. -/
theorem lookupKey_map_str {params : List (String × String)} {k : String}
    {v : Json}
    (h : lookupKey (params.map (fun q => (q.1, Json.str q.2))) k = some v) :
    ∃ s, v = Json.str s := by
  induction params with
  | nil => simp [lookupKey] at h
  | cons hd t ih =>
    obtain ⟨k0, v0⟩ := hd
    by_cases hk : k0 = k
    · simp [lookupKey, hk] at h
      exact ⟨v0, h.symm⟩
    · simp only [List.map_cons, lookupKey, hk, if_false] at h
      exact ih h

/-- An optional-string field never raises an issue on an object whose
values are all strings. -/
theorem zodOptString_on_strings (params : List (String × String)) (k : String) :
    errList (zodOptString (params.map (fun q => (q.1, Json.str q.2))) k) = [] := by
  unfold zodOptString
  rcases hl : lookupKey (params.map (fun q => (q.1, Json.str q.2))) k with _ | v
  · rw [hl]; simp [errList]
  · obtain ⟨s, rfl⟩ := lookupKey_map_str hl
    rw [hl]; simp [errList]

/-- C10: the hotel filter's `Invalid request parameters` branch is
unreachable — `HotelSchema.parse` succeeds on every possible query-string
parameter set (all values are strings, all six schema fields are optional
strings, unknown keys such as `limit`/`offset` are stripped), so the
handler never returns 400. -/
theorem c10_hotel_filter_400_unreachable (conn : Bool) (hotels : List Json)
    (params : List (String × String)) :
    (∃ hp, HotelSchema.parse
      (.obj (params.map (fun q => (q.1, Json.str q.2)))) = .ok hp) ∧
    (hotelFilterGET conn hotels params).status ≠ 400 := by
  have hiss : hotelIssues (params.map (fun q => (q.1, Json.str q.2))) = [] := by
    unfold hotelIssues
    rw [zodOptString_on_strings, zodOptString_on_strings,
        zodOptString_on_strings, zodOptString_on_strings,
        zodOptString_on_strings, zodOptString_on_strings]
    rfl
  have hp : HotelSchema.parse (.obj (params.map (fun q => (q.1, Json.str q.2)))) =
      .ok ⟨exGet (zodOptString (params.map (fun q => (q.1, Json.str q.2))) "name") none,
           exGet (zodOptString (params.map (fun q => (q.1, Json.str q.2))) "title") none,
           exGet (zodOptString (params.map (fun q => (q.1, Json.str q.2))) "description") none,
           exGet (zodOptString (params.map (fun q => (q.1, Json.str q.2))) "country") none,
           exGet (zodOptString (params.map (fun q => (q.1, Json.str q.2))) "city") none,
           exGet (zodOptString (params.map (fun q => (q.1, Json.str q.2))) "state") none⟩ := by
    simp [HotelSchema.parse, hiss]
  refine ⟨⟨_, hp⟩, ?_⟩
  unfold hotelFilterGET
  rw [hp]
  cases conn with
  | false => simp
  | true =>
    simp only [if_true]
    split
    · simp
    · simp
